import Mathlib

/-
  Verification of the dhive DatabaseAPI helper module
  (src/lib/helpers/database.d.ts).

  The repository ships only the TypeScript declaration file for this module;
  the bodies of the Parameter Normalizer, the Bitmask Filter Builder and the
  Facade methods are not under src/.  Their behaviour is therefore modelled
  from the specification, definition by definition, and each such definition
  carries a doc comment starting with "Modelled from the spec:".
-/

namespace Dhive

/-- JSON-compatible values exchanged with the Transport Capability.
Objects are modelled as arrays of values; the spec treats remote results as
opaque structured data, so the exact object encoding is irrelevant to the
claims. -/
inductive JSONValue where
  | null : JSONValue
  | bool (b : Bool) : JSONValue
  | num (n : Int) : JSONValue
  | str (s : String) : JSONValue
  | arr (elems : List JSONValue) : JSONValue

/-- Outcome of one invocation of the Transport Capability: a decoded value,
an explicit remote RPC error (code and message), or a transport failure. -/
inductive RemoteOutcome where
  | ok (value : JSONValue) : RemoteOutcome
  | remoteErr (code : Int) (message : String) : RemoteOutcome
  | transportErr (message : String) : RemoteOutcome

/-- The abstract Transport Capability: invoke(apiNamespace, methodName, params). -/
def TransportFn : Type := String → String → List JSONValue → RemoteOutcome

/-- The error taxonomy of the spec (section 7): ValidationError, TransportError,
RemoteError and NotFoundError are distinct signals. -/
inductive ApiError where
  | validationError (field constraint : String) : ApiError
  | transportError (message : String) : ApiError
  | remoteError (code : Int) (message : String) : ApiError
  | notFoundError (what : String) : ApiError
deriving Repr, DecidableEq

/-- Result of one Facade operation: the decoded value or the error, paired
with the number of transport calls the operation performed. -/
abbrev CallResult := Except ApiError JSONValue × Nat

/-- True exactly on results that are a ValidationError. -/
def isValidationError : Except ApiError JSONValue → Bool
  | .error (.validationError _ _) => true
  | _ => false

/- ## Bitmask Filter Builder -/

/-- Modelled from the spec: one step of the bitmask builder.  For identifier
i, if i < 32 set bit i in lowMask, else set bit i - 32 in highMask.  The
implementation is not under src/ (only the getAccountHistory declaration
mentions the filter). -/
def maskStep (m : Nat × Nat) (i : Nat) : Nat × Nat :=
  if i < 32 then (m.1 ||| (1 <<< i), m.2) else (m.1, m.2 ||| (1 <<< (i - 32)))

/-- Modelled from the spec: fold the builder step over the identifier list,
starting from the empty (0, 0) mask pair. -/
def buildMasks (ids : List Nat) : Nat × Nat :=
  ids.foldl maskStep (0, 0)

/-- Modelled from the spec: the bitmask builder raises ValidationError on any
identifier that is 64 or above instead of silently overflowing; otherwise it
returns the (lowMask, highMask) pair. -/
def makeBitMaskFilter (ids : List Nat) : Except ApiError (Nat × Nat) :=
  if ids.all (fun i => i < 64) then .ok (buildMasks ids)
  else .error (.validationError "operations" "operation id must be below 64")

/-- Decompose a (lowMask, highMask) pair back into the list of bit positions
it encodes: position j for bit j of lowMask, position j + 32 for bit j of
highMask. -/
def decodeMasks (m : Nat × Nat) : List Nat :=
  ((List.range 32).filter (fun j => m.1.testBit j)) ++
    (((List.range 32).filter (fun j => m.2.testBit j)).map (fun j => j + 32))

lemma maskStep_fst_testBit (m : Nat × Nat) (i j : Nat) :
    (maskStep m i).1.testBit j = (m.1.testBit j || (i < 32 && i == j)) := by
  unfold maskStep
  by_cases h : i < 32
  · simp [h, Nat.shiftLeft_eq, Nat.testBit_two_pow]
    by_cases hij : i = j <;> simp [hij]
  · simp [h]

lemma maskStep_snd_testBit (m : Nat × Nat) (i j : Nat) :
    (maskStep m i).2.testBit j = (m.2.testBit j || (!(i < 32) && i - 32 == j)) := by
  unfold maskStep
  by_cases h : i < 32
  · simp [h]
  · simp [h, Nat.shiftLeft_eq, Nat.testBit_two_pow]
    by_cases hij : i - 32 = j <;> simp [hij]

lemma foldl_maskStep_fst (ids : List Nat) : ∀ (m : Nat × Nat) (j : Nat),
    ((ids.foldl maskStep m).1.testBit j = true) ↔
      (m.1.testBit j = true ∨ (j ∈ ids ∧ j < 32)) := by
  induction ids with
  | nil => intro m j; simp
  | cons i rest ih =>
    intro m j
    rw [List.foldl_cons, ih]
    rw [maskStep_fst_testBit]
    constructor
    · rintro (h | h)
      · rcases Bool.or_eq_true_iff.mp h with h1 | h1
        · exact Or.inl h1
        · have h2 := Bool.and_eq_true_iff.mp h1
          have hi : i < 32 := by simpa using h2.1
          have hij : i = j := by simpa using h2.2
          exact Or.inr ⟨by simp [← hij], by rw [← hij]; exact hi⟩
      · exact Or.inr ⟨List.mem_cons_of_mem _ h.1, h.2⟩
    · rintro (h | ⟨hmem, hlt⟩)
      · exact Or.inl (by simp [h])
      · rcases List.mem_cons.mp hmem with rfl | hmem'
        · exact Or.inl (by simp [hlt])
        · exact Or.inr ⟨hmem', hlt⟩

lemma foldl_maskStep_snd (ids : List Nat) : ∀ (m : Nat × Nat) (j : Nat),
    ((ids.foldl maskStep m).2.testBit j = true) ↔
      (m.2.testBit j = true ∨ ∃ i ∈ ids, ¬ i < 32 ∧ i - 32 = j) := by
  induction ids with
  | nil => intro m j; simp
  | cons i rest ih =>
    intro m j
    rw [List.foldl_cons, ih]
    rw [maskStep_snd_testBit]
    constructor
    · rintro (h | h)
      · rcases Bool.or_eq_true_iff.mp h with h1 | h1
        · exact Or.inl h1
        · have h2 := Bool.and_eq_true_iff.mp h1
          have hi : ¬ i < 32 := by simpa using h2.1
          have hij : i - 32 = j := by simpa using h2.2
          exact Or.inr ⟨i, List.mem_cons_self _ _, hi, hij⟩
      · obtain ⟨i', hi', hlt, hij⟩ := h
        exact Or.inr ⟨i', List.mem_cons_of_mem _ hi', hlt, hij⟩
    · rintro (h | ⟨i', hi', hlt, hij⟩)
      · exact Or.inl (by simp [h])
      · rcases List.mem_cons.mp hi' with rfl | hmem'
        · exact Or.inl (by simp [hlt, hij])
        · exact Or.inr ⟨i', hmem', hlt, hij⟩

/-- Bit j of the low mask is set iff j is in the input list and j < 32. -/
lemma buildMasks_fst_testBit (ids : List Nat) (j : Nat) :
    ((buildMasks ids).1.testBit j = true) ↔ (j ∈ ids ∧ j < 32) := by
  unfold buildMasks
  rw [foldl_maskStep_fst]
  simp

/-- Bit j of the high mask is set iff some identifier i ≥ 32 with i - 32 = j
is in the input list. -/
lemma buildMasks_snd_testBit (ids : List Nat) (j : Nat) :
    ((buildMasks ids).2.testBit j = true) ↔ ∃ i ∈ ids, ¬ i < 32 ∧ i - 32 = j := by
  unfold buildMasks
  rw [foldl_maskStep_snd]
  simp

/- ## Database API Facade -/

/-- Modelled from the spec: a transport failure is surfaced unchanged as a
TransportError and an explicit remote RPC error is translated into a
RemoteError carrying the remote code and message. -/
def mapOutcome : RemoteOutcome → Except ApiError JSONValue
  | .ok v => .ok v
  | .remoteErr c m => .error (.remoteError c m)
  | .transportErr m => .error (.transportError m)

/-- Modelled from the spec: the generic untyped call, a convenience for
calling the database_api namespace through the Transport Capability.  It
performs exactly one transport invocation. -/
def call (method : String) (params : List JSONValue) (t : TransportFn) : CallResult :=
  (mapOutcome (t "database_api" method params), 1)

/-- Possible categories for the discussion queries, from the source
declaration of DiscussionQueryCategory. -/
inductive DiscussionQueryCategory where
  | active | blog | cashout | children | comments | feed | hot | promoted
  | trending | votes | created
deriving Repr, DecidableEq

/-- The category suffix appended to the remote method name. -/
def DiscussionQueryCategory.remoteName : DiscussionQueryCategory → String
  | .active => "active"
  | .blog => "blog"
  | .cashout => "cashout"
  | .children => "children"
  | .comments => "comments"
  | .feed => "feed"
  | .hot => "hot"
  | .promoted => "promoted"
  | .trending => "trending"
  | .votes => "votes"
  | .created => "created"

/-- The discussion query record, from the source declaration of
DisqussionQuery (sic). -/
structure DisqussionQuery where
  tag : Option String := none
  limit : Nat
  filter_tags : Option (List String) := none
  select_authors : Option (List String) := none
  select_tags : Option (List String) := none
  truncate_body : Option Nat := none
  start_author : Option String := none
  start_permlink : Option String := none
  parent_author : Option String := none
  parent_permlink : Option String := none

def encodeOptStr : Option String → JSONValue
  | none => .null
  | some s => .str s

def encodeOptStrList : Option (List String) → JSONValue
  | none => .null
  | some xs => .arr (xs.map .str)

def encodeOptNat : Option Nat → JSONValue
  | none => .null
  | some n => .num n

/-- Encoding of the query record as a single JSON value (the spec treats the
query object as an opaque JSON-compatible value, so the field order chosen
here is immaterial to every claim). -/
def encodeDisqussionQuery (q : DisqussionQuery) : JSONValue :=
  .arr [encodeOptStr q.tag, .num q.limit, encodeOptStrList q.filter_tags,
    encodeOptStrList q.select_authors, encodeOptStrList q.select_tags,
    encodeOptNat q.truncate_body, encodeOptStr q.start_author,
    encodeOptStr q.start_permlink, encodeOptStr q.parent_author,
    encodeOptStr q.parent_permlink]

def isHexDigitChar (c : Char) : Bool :=
  c.isDigit || (decide ('a' ≤ c) && decide (c ≤ 'f')) || (decide ('A' ≤ c) && decide (c ≤ 'F'))

/-- Modelled from the spec: a transaction id is a fixed-length (40 character)
hex identifier. -/
def validTxId (txId : String) : Bool :=
  txId.length == 40 && txId.toList.all isHexDigitChar

/-- Modelled from the spec: the shape of a remote error message reporting
that no such transaction exists. -/
def reportsNoSuchTransaction (message : String) : Bool :=
  message == "no such transaction"

/-- Modelled from the spec: return state of server; no parameters. -/
def getDynamicGlobalProperties (t : TransportFn) : CallResult :=
  (mapOutcome (t "database_api" "get_dynamic_global_properties" []), 1)

/-- Modelled from the spec: return median chain properties; no parameters. -/
def getChainProperties (t : TransportFn) : CallResult :=
  (mapOutcome (t "database_api" "get_chain_properties" []), 1)

/-- Modelled from the spec: getState(path); path must be a non-empty string. -/
def getState (path : String) (t : TransportFn) : CallResult :=
  if path = "" then (.error (.validationError "path" "must be a non-empty string"), 0)
  else (mapOutcome (t "database_api" "get_state" [.str path]), 1)

/-- Modelled from the spec: return median HBD price; no parameters. -/
def getCurrentMedianHistoryPrice (t : TransportFn) : CallResult :=
  (mapOutcome (t "database_api" "get_current_median_history_price" []), 1)

/-- Modelled from the spec: getVestingDelegations(account, from?, limit?).
The account must be a non-empty string; the cursor defaults to the empty
string; the limit defaults to the documented cap of 1000 and values above
the cap fail validation before any call. -/
def getVestingDelegations (account : String) (fromArg : Option String)
    (limitArg : Option Nat) (t : TransportFn) : CallResult :=
  if account = "" then (.error (.validationError "account" "must be a non-empty string"), 0)
  else if 1000 < limitArg.getD 1000 then
    (.error (.validationError "limit" "limit exceeds maximum of 1000"), 0)
  else (mapOutcome (t "database_api" "get_vesting_delegations"
    [.str account, .str (fromArg.getD ""), .num (limitArg.getD 1000)]), 1)

/-- Modelled from the spec: return server config; no parameters. -/
def getConfig (t : TransportFn) : CallResult :=
  (mapOutcome (t "database_api" "get_config" []), 1)

/-- Modelled from the spec: getBlockHeader(blockNum); blockNum must be a
positive integer; a null result is returned transparently. -/
def getBlockHeader (blockNum : Nat) (t : TransportFn) : CallResult :=
  if blockNum = 0 then (.error (.validationError "blockNum" "must be a positive integer"), 0)
  else (mapOutcome (t "database_api" "get_block_header" [.num blockNum]), 1)

/-- Modelled from the spec: getBlock(blockNum); blockNum must be a positive
integer; a null result for a block beyond the chain head is returned
transparently, not as an error. -/
def getBlock (blockNum : Nat) (t : TransportFn) : CallResult :=
  if blockNum = 0 then (.error (.validationError "blockNum" "must be a positive integer"), 0)
  else (mapOutcome (t "database_api" "get_block" [.num blockNum]), 1)

/-- Modelled from the spec: getOperations(blockNum, onlyVirtual?); the
onlyVirtual flag defaults to false. -/
def getOperations (blockNum : Nat) (onlyVirtual : Option Bool) (t : TransportFn) : CallResult :=
  if blockNum = 0 then (.error (.validationError "blockNum" "must be a positive integer"), 0)
  else (mapOutcome (t "database_api" "get_ops_in_block"
    [.num blockNum, .bool (onlyVirtual.getD false)]), 1)

/-- Modelled from the spec: getDiscussions(sortKey, query); the query limit
must lie in 1..100 and the start_author/start_permlink cursor is a pair,
supplying one without the other is a usage error.  Validation failures are
local and reach no transport call. -/
def getDiscussions (category : DiscussionQueryCategory) (q : DisqussionQuery)
    (t : TransportFn) : CallResult :=
  if q.limit = 0 ∨ 100 < q.limit then
    (.error (.validationError "limit" "limit must be between 1 and 100"), 0)
  else if q.start_author.isSome ≠ q.start_permlink.isSome then
    (.error (.validationError "start_author" "start_author and start_permlink must be supplied together"), 0)
  else (mapOutcome (t "database_api" ("get_discussions_by_" ++ category.remoteName)
    [encodeDisqussionQuery q]), 1)

/-- Modelled from the spec: getAccounts(usernames); every username must be a
non-empty string. -/
def getAccounts (usernames : List String) (t : TransportFn) : CallResult :=
  if usernames.all (fun u => u ≠ "") then
    (mapOutcome (t "database_api" "get_accounts" [.arr (usernames.map .str)]), 1)
  else (.error (.validationError "usernames" "account names must be non-empty strings"), 0)

/-- Modelled from the spec: getTransaction(txId); a remote report that no
such transaction exists surfaces as NotFoundError, distinct from RemoteError,
rather than as a null result. -/
def getTransaction (txId : String) (t : TransportFn) : CallResult :=
  if validTxId txId then
    match t "database_api" "get_transaction" [.str txId] with
    | .ok v => (.ok v, 1)
    | .remoteErr c m =>
      (if reportsNoSuchTransaction m then .error (.notFoundError txId)
       else .error (.remoteError c m), 1)
    | .transportErr m => (.error (.transportError m), 1)
  else (.error (.validationError "txId" "must be a 40 character hex string"), 0)

/-- Parameter list for getAccountHistory: the optional bitmask pair is
appended as two further numbers when present and omitted when unset. -/
def historyParams (account : String) (start limit : Nat)
    (bm : Option (Nat × Nat)) : List JSONValue :=
  match bm with
  | none => [.str account, .num start, .num limit]
  | some (lo, hi) => [.str account, .num start, .num limit, .num lo, .num hi]

/-- Modelled from the spec: getAccountHistory(account, from, limit,
operationBitmask?); the limit must not exceed from + 1, violations fail
validation locally before any transport call. -/
def getAccountHistory (account : String) (start limit : Nat)
    (bm : Option (Nat × Nat)) (t : TransportFn) : CallResult :=
  if account = "" then (.error (.validationError "account" "must be a non-empty string"), 0)
  else if start + 1 < limit then
    (.error (.validationError "limit" "limit must not exceed from plus one"), 0)
  else (mapOutcome (t "database_api" "get_account_history"
    (historyParams account start limit bm)), 1)

/-- Modelled from the spec: verifyAuthority(signedTransaction); the
transaction is an opaque structured value. -/
def verifyAuthority (stx : JSONValue) (t : TransportFn) : CallResult :=
  (mapOutcome (t "database_api" "verify_authority" [stx]), 1)

/-- Modelled from the spec: return the rpc node version; no parameters. -/
def getVersion (t : TransportFn) : CallResult :=
  (mapOutcome (t "database_api" "get_version" []), 1)

/- ## Parameter Normalizer, stated from the spec for the refinement claim -/

/-- Modelled from the spec: normalize for getState. -/
def normalizeGetState (path : String) : Except ApiError (List JSONValue) :=
  if path = "" then .error (.validationError "path" "must be a non-empty string")
  else .ok [.str path]

/-- Modelled from the spec: normalize for getVestingDelegations; fills the
documented defaults (empty cursor, limit 1000). -/
def normalizeGetVestingDelegations (account : String) (fromArg : Option String)
    (limitArg : Option Nat) : Except ApiError (List JSONValue) :=
  if account = "" then .error (.validationError "account" "must be a non-empty string")
  else if 1000 < limitArg.getD 1000 then
    .error (.validationError "limit" "limit exceeds maximum of 1000")
  else .ok [.str account, .str (fromArg.getD ""), .num (limitArg.getD 1000)]

/-- Modelled from the spec: normalize for getBlockHeader and getBlock. -/
def normalizeBlockNum (blockNum : Nat) : Except ApiError (List JSONValue) :=
  if blockNum = 0 then .error (.validationError "blockNum" "must be a positive integer")
  else .ok [.num blockNum]

/-- Modelled from the spec: normalize for getOperations; the onlyVirtual
flag defaults to false. -/
def normalizeGetOperations (blockNum : Nat) (onlyVirtual : Option Bool) :
    Except ApiError (List JSONValue) :=
  if blockNum = 0 then .error (.validationError "blockNum" "must be a positive integer")
  else .ok [.num blockNum, .bool (onlyVirtual.getD false)]

/-- Modelled from the spec: normalize for getDiscussions. -/
def normalizeGetDiscussions (q : DisqussionQuery) : Except ApiError (List JSONValue) :=
  if q.limit = 0 ∨ 100 < q.limit then
    .error (.validationError "limit" "limit must be between 1 and 100")
  else if q.start_author.isSome ≠ q.start_permlink.isSome then
    .error (.validationError "start_author" "start_author and start_permlink must be supplied together")
  else .ok [encodeDisqussionQuery q]

/-- Modelled from the spec: normalize for getAccounts. -/
def normalizeGetAccounts (usernames : List String) : Except ApiError (List JSONValue) :=
  if usernames.all (fun u => u ≠ "") then .ok [.arr (usernames.map .str)]
  else .error (.validationError "usernames" "account names must be non-empty strings")

/-- Modelled from the spec: normalize for getTransaction. -/
def normalizeGetTransaction (txId : String) : Except ApiError (List JSONValue) :=
  if validTxId txId then .ok [.str txId]
  else .error (.validationError "txId" "must be a 40 character hex string")

/-- Modelled from the spec: normalize for getAccountHistory. -/
def normalizeGetAccountHistory (account : String) (start limit : Nat)
    (bm : Option (Nat × Nat)) : Except ApiError (List JSONValue) :=
  if account = "" then .error (.validationError "account" "must be a non-empty string")
  else if start + 1 < limit then
    .error (.validationError "limit" "limit must not exceed from plus one")
  else .ok (historyParams account start limit bm)

/-- Run the generic call on a normalized parameter list: a validation error
surfaces locally with zero transport calls, otherwise the generic call is
invoked with the method's remote name. -/
def runCall (method : String) (norm : Except ApiError (List JSONValue))
    (t : TransportFn) : CallResult :=
  match norm with
  | .error e => (.error e, 0)
  | .ok ps => call method ps t

/-- The translation getTransaction applies on top of the generic call: a
RemoteError whose message reports that no such transaction exists becomes a
NotFoundError naming the transaction id. -/
def translateNoSuchTransaction (txId : String) (r : CallResult) : CallResult :=
  match r with
  | (.error (.remoteError c m), n) =>
    (if reportsNoSuchTransaction m then .error (.notFoundError txId)
     else .error (.remoteError c m), n)
  | other => other

/- ## Account history result shape -/

/-- Encode a list of (sequenceNumber, operation) pairs the way the remote
side returns account history. -/
def encodeHistory (entries : List (Nat × JSONValue)) : JSONValue :=
  .arr (entries.map (fun e => .arr [.num e.1, e.2]))

/-- True when the list of sequence numbers is strictly decreasing. -/
def strictlyDescending : List Nat → Bool
  | [] => true
  | [_] => true
  | a :: b :: rest => decide (b < a) && strictlyDescending (b :: rest)

/- ## The facade as an explicit state machine, for the immutability claim -/

/-- The transport client held by the facade; it carries the invoke
capability. -/
structure Client where
  transport : TransportFn

/-- The Database API facade: its only field is the client reference fixed at
construction (declared readonly in the source). -/
structure DatabaseAPI where
  client : Client

/-- One typed facade operation together with its arguments. -/
inductive FacadeCall where
  | dynamicGlobalProperties : FacadeCall
  | chainProperties : FacadeCall
  | state (path : String) : FacadeCall
  | currentMedianHistoryPrice : FacadeCall
  | vestingDelegations (account : String) (fromArg : Option String)
      (limitArg : Option Nat) : FacadeCall
  | config : FacadeCall
  | blockHeader (blockNum : Nat) : FacadeCall
  | block (blockNum : Nat) : FacadeCall
  | operations (blockNum : Nat) (onlyVirtual : Option Bool) : FacadeCall
  | discussions (category : DiscussionQueryCategory) (q : DisqussionQuery) : FacadeCall
  | accounts (usernames : List String) : FacadeCall
  | transaction (txId : String) : FacadeCall
  | accountHistory (account : String) (start limit : Nat)
      (bm : Option (Nat × Nat)) : FacadeCall
  | authority (stx : JSONValue) : FacadeCall
  | version : FacadeCall

/-- Dispatch one facade operation against the facade state.  Methods are
modelled as state transformers so that the immutability of the facade is a
statement, not a typing convention: each returns the facade state it ran
against. -/
def DatabaseAPI.run (api : DatabaseAPI) : FacadeCall → CallResult × DatabaseAPI
  | .dynamicGlobalProperties => (getDynamicGlobalProperties api.client.transport, api)
  | .chainProperties => (getChainProperties api.client.transport, api)
  | .state path => (getState path api.client.transport, api)
  | .currentMedianHistoryPrice => (getCurrentMedianHistoryPrice api.client.transport, api)
  | .vestingDelegations account fromArg limitArg =>
    (getVestingDelegations account fromArg limitArg api.client.transport, api)
  | .config => (getConfig api.client.transport, api)
  | .blockHeader blockNum => (getBlockHeader blockNum api.client.transport, api)
  | .block blockNum => (getBlock blockNum api.client.transport, api)
  | .operations blockNum onlyVirtual => (getOperations blockNum onlyVirtual api.client.transport, api)
  | .discussions category q => (getDiscussions category q api.client.transport, api)
  | .accounts usernames => (getAccounts usernames api.client.transport, api)
  | .transaction txId => (getTransaction txId api.client.transport, api)
  | .accountHistory account start limit bm =>
    (getAccountHistory account start limit bm api.client.transport, api)
  | .authority stx => (verifyAuthority stx api.client.transport, api)
  | .version => (getVersion api.client.transport, api)

/- ## Concrete transport doubles and small helpers used by the witnesses -/

/-- True when the list is empty or its head is at most the bound. -/
def headLE (bound : Nat) : List Nat → Bool
  | [] => true
  | a :: _ => decide (a ≤ bound)

/-- A transport double that answers null to every call. -/
def nullTransport : TransportFn := fun _ _ _ => .ok .null

/-- A concrete discussion query whose limit of 101 exceeds the documented
cap of 100. -/
def query101 : DisqussionQuery :=
  ⟨none, 101, none, none, none, none, none, none, none, none⟩

/-- A transport double whose every answer is a remote error reporting that
no such transaction exists. -/
def noSuchTxTransport : TransportFn := fun _ _ _ => .remoteErr 1 "no such transaction"

/-- A concrete 40 character hex transaction id. -/
def sampleTxId : String := "0123456789abcdef0123456789abcdef01234567"

/-- Three concrete descending history entries starting at sequence 100. -/
def sampleHistoryEntries : List (Nat × JSONValue) :=
  [(100, .null), (99, .null), (98, .null)]

/-- A transport double answering the concrete descending history entries. -/
def historyTransport : TransportFn :=
  fun _ _ _ => .ok (encodeHistory sampleHistoryEntries)

/- ## Helper lemmas about the bitmask builder -/

lemma buildMasks_congr (l l' : List Nat) (hmem : ∀ x, x ∈ l ↔ x ∈ l') :
    buildMasks l = buildMasks l' := by
  have h1 : (buildMasks l).1 = (buildMasks l').1 := by
    apply Nat.eq_of_testBit_eq
    intro j
    rw [Bool.eq_iff_iff, buildMasks_fst_testBit, buildMasks_fst_testBit]
    exact and_congr_left (fun _ => hmem j)
  have h2 : (buildMasks l).2 = (buildMasks l').2 := by
    apply Nat.eq_of_testBit_eq
    intro j
    rw [Bool.eq_iff_iff, buildMasks_snd_testBit, buildMasks_snd_testBit]
    constructor
    · rintro ⟨i, hi, hrest⟩; exact ⟨i, (hmem i).mp hi, hrest⟩
    · rintro ⟨i, hi, hrest⟩; exact ⟨i, (hmem i).mpr hi, hrest⟩
  exact Prod.ext h1 h2

lemma makeBitMaskFilter_congr (l l' : List Nat) (hmem : ∀ x, x ∈ l ↔ x ∈ l') :
    makeBitMaskFilter l = makeBitMaskFilter l' := by
  unfold makeBitMaskFilter
  have hall : l.all (fun i => decide (i < 64)) = l'.all (fun i => decide (i < 64)) := by
    rw [Bool.eq_iff_iff, List.all_eq_true, List.all_eq_true]
    constructor
    · intro hh x hx; exact hh x ((hmem x).mpr hx)
    · intro hh x hx; exact hh x ((hmem x).mp hx)
  rw [hall, buildMasks_congr l l' hmem]

/- ## Claims about the Bitmask Filter Builder -/

/-- C1 (counterexample): the concrete example of the claim is off by one bit.
Identifier 32 sets bit 0 of the high mask, so build on the set containing 0,
5, 31, 32 and 40 yields highMask 0x101, not the claimed 0x100. -/
theorem bitmask_build_example_value_counterexample :
    makeBitMaskFilter [0, 5, 31, 32, 40] = .ok (0x80000021, 0x00000101) ∧
    makeBitMaskFilter [0, 5, 31, 32, 40] ≠ .ok (0x80000021, 0x00000100) := by
  refine ⟨rfl, ?_⟩
  intro h
  rw [show makeBitMaskFilter [0, 5, 31, 32, 40] = .ok (0x80000021, 0x00000101) from rfl] at h
  injection h with h1
  have h2 : (0x101 : Nat) = 0x100 := congrArg Prod.snd h1
  simp at h2

/-- C1 (amended): for identifier lists all below 64 the builder succeeds and
the mask pair decomposes back into exactly the input identifiers; bit i of
lowMask is set iff identifier i (i < 32) is in the input, bit i - 32 of
highMask is set iff identifier i (32 ≤ i < 64) is in the input; and in
particular build on the set containing 0, 5, 31, 32 and 40 yields lowMask
0x80000021 and highMask 0x00000101. -/
theorem bitmask_build_roundTrip (ids : List Nat)
    (h : ids.all (fun i => i < 64) = true) :
    makeBitMaskFilter ids = .ok (buildMasks ids) ∧
    (∀ j, j < 32 → (((buildMasks ids).1.testBit j = true) ↔ j ∈ ids)) ∧
    (∀ j, 32 ≤ j → j < 64 → (((buildMasks ids).2.testBit (j - 32) = true) ↔ j ∈ ids)) ∧
    (∀ j, j ∈ decodeMasks (buildMasks ids) ↔ j ∈ ids) ∧
    makeBitMaskFilter [0, 5, 31, 32, 40] = .ok (0x80000021, 0x00000101) := by
  have hlt : ∀ i ∈ ids, i < 64 := by simpa [List.all_eq_true] using h
  have hfst : ∀ j, j < 32 → (((buildMasks ids).1.testBit j = true) ↔ j ∈ ids) := by
    intro j hj
    rw [buildMasks_fst_testBit]
    exact ⟨fun hh => hh.1, fun hh => ⟨hh, hj⟩⟩
  have hsnd : ∀ j, 32 ≤ j → j < 64 →
      (((buildMasks ids).2.testBit (j - 32) = true) ↔ j ∈ ids) := by
    intro j hj32 hj64
    rw [buildMasks_snd_testBit]
    constructor
    · rintro ⟨i, hi, hi32, hieq⟩
      have : i = j := by omega
      rwa [this] at hi
    · intro hj
      exact ⟨j, hj, by omega, rfl⟩
  refine ⟨by simp [makeBitMaskFilter, h], hfst, hsnd, ?_, rfl⟩
  intro j
  simp only [decodeMasks, List.mem_append, List.mem_filter, List.mem_range,
    List.mem_map]
  constructor
  · rintro (⟨hj32, hbit⟩ | ⟨a, ⟨ha32, hbit⟩, haeq⟩)
    · exact ((hfst j hj32).mp hbit)
    · have hbit' := (buildMasks_snd_testBit ids a).mp hbit
      obtain ⟨i, hi, hi32, hieq⟩ := hbit'
      have : i = j := by omega
      rwa [this] at hi
  · intro hj
    by_cases hj32 : j < 32
    · exact Or.inl ⟨hj32, (hfst j hj32).mpr hj⟩
    · refine Or.inr ⟨j - 32, ⟨by have := hlt j hj; omega, ?_⟩, by omega⟩
      exact (hsnd j (by omega) (hlt j hj)).mpr hj

/-- C1 (witness): the round-trip theorem applied to the concrete identifier
list of the spec example. -/
theorem bitmask_build_roundTrip_witness :
    makeBitMaskFilter [0, 5, 31, 32, 40] = .ok (buildMasks [0, 5, 31, 32, 40]) :=
  (bitmask_build_roundTrip [0, 5, 31, 32, 40] (by decide)).1

/-- C5: the bitmask builder is pure and order independent; permuting the
input list leaves the result unchanged, duplicating the whole input leaves
the result unchanged, and in particular build [5, 0, 5] equals
build [0, 5]. -/
theorem bitmask_build_order_independent (l l' : List Nat) (hp : l.Perm l') :
    makeBitMaskFilter l = makeBitMaskFilter l' ∧
    makeBitMaskFilter (l ++ l) = makeBitMaskFilter l ∧
    makeBitMaskFilter [5, 0, 5] = makeBitMaskFilter [0, 5] := by
  refine ⟨makeBitMaskFilter_congr l l' (fun x => hp.mem_iff), ?_, rfl⟩
  exact makeBitMaskFilter_congr (l ++ l) l (fun x => by simp [List.mem_append])

/-- C5 (witness): the order-independence theorem applied to a concrete
permutation, and the concrete duplicate-tolerance equation it carries. -/
theorem bitmask_build_order_independent_witness :
    makeBitMaskFilter [5, 0, 5] = makeBitMaskFilter [5, 5, 0] ∧
    makeBitMaskFilter [5, 0, 5] = makeBitMaskFilter [0, 5] :=
  ⟨(bitmask_build_order_independent [5, 0, 5] [5, 5, 0] (by decide)).1,
   (bitmask_build_order_independent [5, 0, 5] [5, 5, 0] (by decide)).2.2⟩

/-- C8: the bitmask builder raises ValidationError on any input containing
an identifier of 64 or above instead of silently overflowing; on inputs all
below 64 it succeeds, setting bit i of lowMask for each identifier i < 32
and bit i - 32 of highMask for each identifier 32 ≤ i < 64. -/
theorem bitmask_build_range_check (ids : List Nat) :
    ((∃ i ∈ ids, 64 ≤ i) →
      makeBitMaskFilter ids =
        .error (.validationError "operations" "operation id must be below 64")) ∧
    ((∀ i ∈ ids, i < 64) →
      makeBitMaskFilter ids = .ok (buildMasks ids) ∧
      ∀ i ∈ ids, (i < 32 → (buildMasks ids).1.testBit i = true) ∧
        (¬ i < 32 → (buildMasks ids).2.testBit (i - 32) = true)) := by
  constructor
  · rintro ⟨i, hi, h64⟩
    have hall : ids.all (fun i => decide (i < 64)) = false := by
      simp [List.all_eq_false]
      exact ⟨i, hi, by omega⟩
    simp [makeBitMaskFilter, hall]
  · intro hlt
    have hall : ids.all (fun i => decide (i < 64)) = true := by
      simp [List.all_eq_true]
      exact hlt
    refine ⟨by simp [makeBitMaskFilter, hall], ?_⟩
    intro i hi
    constructor
    · intro hi32
      exact (buildMasks_fst_testBit ids i).mpr ⟨hi, hi32⟩
    · intro hi32
      exact (buildMasks_snd_testBit ids (i - 32)).mpr ⟨i, hi, hi32, rfl⟩

/-- C8 (witness): the range-check theorem applied to the concrete inputs
containing 64 (rejected) and containing 5 and 40 (accepted). -/
theorem bitmask_build_range_check_witness :
    makeBitMaskFilter [64] =
      .error (.validationError "operations" "operation id must be below 64") ∧
    makeBitMaskFilter [5, 40] = .ok (buildMasks [5, 40]) :=
  ⟨(bitmask_build_range_check [64]).1 (by decide),
   ((bitmask_build_range_check [5, 40]).2 (by decide)).1⟩

/- ## Claims about validation and the facade -/

/-- C2: every modelled facade operation with a validation rule raises a
ValidationError locally on a failing input, performing zero transport calls;
in particular getDiscussions with a query limit above 100 fails this way. -/
theorem validation_precedes_transport
    (t : TransportFn) (category : DiscussionQueryCategory) (q : DisqussionQuery)
    (path account txId : String) (fromArg : Option String) (limitArg : Option Nat)
    (blockNum start limit : Nat) (onlyVirtual : Option Bool)
    (usernames : List String) (bm : Option (Nat × Nat)) :
    (100 < q.limit →
      getDiscussions category q t =
        (.error (.validationError "limit" "limit must be between 1 and 100"), 0)) ∧
    (path = "" →
      getState path t = (.error (.validationError "path" "must be a non-empty string"), 0)) ∧
    (account = "" →
      getVestingDelegations account fromArg limitArg t =
        (.error (.validationError "account" "must be a non-empty string"), 0)) ∧
    (account ≠ "" → 1000 < limitArg.getD 1000 →
      getVestingDelegations account fromArg limitArg t =
        (.error (.validationError "limit" "limit exceeds maximum of 1000"), 0)) ∧
    (blockNum = 0 →
      getBlockHeader blockNum t =
        (.error (.validationError "blockNum" "must be a positive integer"), 0) ∧
      getBlock blockNum t =
        (.error (.validationError "blockNum" "must be a positive integer"), 0) ∧
      getOperations blockNum onlyVirtual t =
        (.error (.validationError "blockNum" "must be a positive integer"), 0)) ∧
    (usernames.all (fun u => u ≠ "") = false →
      getAccounts usernames t =
        (.error (.validationError "usernames" "account names must be non-empty strings"), 0)) ∧
    (validTxId txId = false →
      getTransaction txId t =
        (.error (.validationError "txId" "must be a 40 character hex string"), 0)) ∧
    (account ≠ "" → start + 1 < limit →
      getAccountHistory account start limit bm t =
        (.error (.validationError "limit" "limit must not exceed from plus one"), 0)) := by
  refine ⟨?_, ?_, ?_, ?_, ?_, ?_, ?_, ?_⟩
  · intro h
    unfold getDiscussions
    rw [if_pos (Or.inr h)]
  · intro h
    unfold getState
    rw [if_pos h]
  · intro h
    unfold getVestingDelegations
    rw [if_pos h]
  · intro h1 h2
    unfold getVestingDelegations
    rw [if_neg h1, if_pos h2]
  · intro h
    unfold getBlockHeader getBlock getOperations
    rw [if_pos h, if_pos h, if_pos h]
    exact ⟨rfl, rfl, rfl⟩
  · intro h
    unfold getAccounts
    rw [if_neg (by simp only [h]; decide)]
  · intro h
    unfold getTransaction
    rw [if_neg (by simp only [h]; decide)]
  · intro h1 h2
    unfold getAccountHistory
    rw [if_neg h1, if_pos h2]

/-- C2 (witness): getDiscussions with a concrete limit of 101 against a
transport double fails with a ValidationError and zero transport calls. -/
theorem validation_precedes_transport_witness :
    getDiscussions .trending query101 nullTransport =
      (.error (.validationError "limit" "limit must be between 1 and 100"), 0) :=
  (validation_precedes_transport nullTransport .trending query101
    "" "" "" none none 0 0 0 none [] none).1 (by decide)

/-- C3 (counterexample): normalizing getVestingDelegations for "alice" with
neither from nor limit set does not omit the unset trailing parameters as the
claim states; it fills them with the documented defaults, yielding a
three-element parameter list rather than the one-element list omission would
produce. -/
theorem normalizer_omission_counterexample :
    normalizeGetVestingDelegations "alice" none none =
      .ok [.str "alice", .str "", .num 1000] ∧
    normalizeGetVestingDelegations "alice" none none ≠
      .ok [.str "alice"] := by
  refine ⟨rfl, ?_⟩
  intro h
  rw [show normalizeGetVestingDelegations "alice" none none =
    .ok [.str "alice", .str "", .num 1000] from rfl] at h
  injection h with h1
  simp at h1

/-- C3 (amended): the normalizer never produces a positional gap; optional
parameters with documented defaults (the from cursor and the limit of
getVestingDelegations) are filled with those defaults when unset, whether or
not a later parameter is set, while a trailing optional parameter without a
default (the operations bitmask of getAccountHistory) is omitted when unset;
in particular normalizing getVestingDelegations for "alice" with no from and
no limit yields the parameters "alice", "" and 1000. -/
theorem normalizer_defaults_no_gap (account fromVal : String)
    (l start limit : Nat) (bm : Nat × Nat) (h : account ≠ "") (hl : l ≤ 1000) :
    normalizeGetVestingDelegations account none none =
      .ok [.str account, .str "", .num 1000] ∧
    normalizeGetVestingDelegations account none (some l) =
      .ok [.str account, .str "", .num l] ∧
    normalizeGetVestingDelegations account (some fromVal) none =
      .ok [.str account, .str fromVal, .num 1000] ∧
    (historyParams account start limit none).length = 3 ∧
    (historyParams account start limit (some bm)).length = 5 := by
  have h1000 : ¬ (1000 : Nat) < 1000 := by omega
  have hll : ¬ 1000 < (some l).getD 1000 := by simp [Option.getD]; omega
  refine ⟨?_, ?_, ?_, rfl, ?_⟩
  · unfold normalizeGetVestingDelegations
    rw [if_neg h, if_neg (by simp only [Option.getD]; exact h1000)]
    rfl
  · unfold normalizeGetVestingDelegations
    rw [if_neg h, if_neg hll]
    rfl
  · unfold normalizeGetVestingDelegations
    rw [if_neg h, if_neg (by simp only [Option.getD]; exact h1000)]
    rfl
  · rcases bm with ⟨lo, hi⟩
    rfl

/-- C3 (witness): the amended normalizer theorem applied to the concrete
account "alice". -/
theorem normalizer_defaults_no_gap_witness :
    normalizeGetVestingDelegations "alice" none none =
      .ok [.str "alice", .str "", .num 1000] :=
  (normalizer_defaults_no_gap "alice" "bob" 500 0 0 (0, 0)
    (by decide) (by decide)).1

/-- C4: getAccountHistory fails with a ValidationError and zero transport
calls when the limit exceeds from + 1; otherwise, when the transport answers
a sequence of history entries whose sequence numbers are strictly decreasing
starting at a value at most from, the facade returns exactly that sequence. -/
theorem getAccountHistory_contract (account : String) (start limit : Nat)
    (bm : Option (Nat × Nat)) (t : TransportFn)
    (entries : List (Nat × JSONValue)) (hacct : account ≠ "") :
    (start + 1 < limit →
      getAccountHistory account start limit bm t =
        (.error (.validationError "limit" "limit must not exceed from plus one"), 0)) ∧
    (limit ≤ start + 1 →
      t "database_api" "get_account_history" (historyParams account start limit bm) =
        .ok (encodeHistory entries) →
      strictlyDescending (entries.map Prod.fst) = true →
      headLE start (entries.map Prod.fst) = true →
      getAccountHistory account start limit bm t =
        (.ok (encodeHistory entries), 1)) := by
  constructor
  · intro h
    unfold getAccountHistory
    rw [if_neg hacct, if_pos h]
  · intro hle ht _ _
    unfold getAccountHistory
    rw [if_neg hacct, if_neg (by omega)]
    rw [ht]
    rfl

/-- C4 (witness): the contract applied to the concrete call of the spec
example (from 100, limit 50) against the descending-entry transport double,
and to an overlarge limit of 200. -/
theorem getAccountHistory_contract_witness :
    getAccountHistory "alice" 100 200 none nullTransport =
      (.error (.validationError "limit" "limit must not exceed from plus one"), 0) ∧
    getAccountHistory "alice" 100 50 none historyTransport =
      (.ok (encodeHistory sampleHistoryEntries), 1) :=
  ⟨(getAccountHistory_contract "alice" 100 200 none nullTransport []
      (by decide)).1 (by decide),
   (getAccountHistory_contract "alice" 100 50 none historyTransport
      sampleHistoryEntries (by decide)).2 (by decide) rfl (by decide) (by decide)⟩

lemma mapOutcome_ne_notFound (o : RemoteOutcome) (s : String) :
    mapOutcome o ≠ .error (.notFoundError s) := by
  cases o <;> intro hc <;> simp [mapOutcome] at hc

/-- C7: for a positive block number, when the transport answers null (as it
does for a block beyond the chain head) getBlock and getBlockHeader return
that null transparently as a valid result, never as an error. -/
theorem getBlock_null_transparent (blockNum : Nat) (t : TransportFn)
    (h : blockNum ≠ 0) :
    (t "database_api" "get_block" [.num blockNum] = .ok .null →
      getBlock blockNum t = (.ok .null, 1)) ∧
    (t "database_api" "get_block_header" [.num blockNum] = .ok .null →
      getBlockHeader blockNum t = (.ok .null, 1)) ∧
    (t "database_api" "get_block" [.num blockNum] = .ok .null →
      ∀ e : ApiError, (getBlock blockNum t).1 ≠ .error e) := by
  refine ⟨?_, ?_, ?_⟩
  · intro ht
    unfold getBlock
    rw [if_neg h, ht]
    rfl
  · intro ht
    unfold getBlockHeader
    rw [if_neg h, ht]
    rfl
  · intro ht e
    unfold getBlock
    rw [if_neg h, ht]
    intro hc
    exact Except.noConfusion hc

/-- C7 (witness): a concrete out-of-range block number against the null
transport double comes back as a null result with one transport call. -/
theorem getBlock_null_transparent_witness :
    getBlock 1000000000 nullTransport = (.ok .null, 1) :=
  (getBlock_null_transparent 1000000000 nullTransport (by decide)).1 rfl

/-- C6: when the remote reports that no such transaction exists,
getTransaction fails with NotFoundError, a signal distinct from RemoteError
and from ValidationError, rather than returning null; and operations for
which absence is a normal empty result (getBlock, getAccounts) never produce
a NotFoundError. -/
theorem getTransaction_notFound_distinct (txId : String) (t : TransportFn)
    (c : Int) (m : String) (hv : validTxId txId = true)
    (ht : t "database_api" "get_transaction" [.str txId] = .remoteErr c m)
    (hm : reportsNoSuchTransaction m = true) :
    getTransaction txId t = (.error (.notFoundError txId), 1) ∧
    (∀ c' m', (ApiError.notFoundError txId) ≠ .remoteError c' m') ∧
    (∀ f constr, (ApiError.notFoundError txId) ≠ .validationError f constr) ∧
    ((getTransaction txId t).1 ≠ .ok .null) ∧
    (∀ (n : Nat) (t' : TransportFn) (s : String),
      (getBlock n t').1 ≠ .error (.notFoundError s)) ∧
    (∀ (us : List String) (t' : TransportFn) (s : String),
      (getAccounts us t').1 ≠ .error (.notFoundError s)) := by
  have hmain : getTransaction txId t = (.error (.notFoundError txId), 1) := by
    unfold getTransaction
    rw [if_pos hv]
    simp only [ht]
    rw [if_pos hm]
  refine ⟨hmain, ?_, ?_, ?_, ?_, ?_⟩
  · intro c' m' hc
    exact ApiError.noConfusion hc
  · intro f constr hc
    exact ApiError.noConfusion hc
  · rw [hmain]
    intro hc
    exact Except.noConfusion hc
  · intro n t' s
    unfold getBlock
    by_cases hn : n = 0
    · rw [if_pos hn]
      intro hc
      injection hc with h1
      exact ApiError.noConfusion h1
    · rw [if_neg hn]
      exact mapOutcome_ne_notFound _ s
  · intro us t' s
    unfold getAccounts
    by_cases hu : us.all (fun u => u ≠ "") = true
    · rw [if_pos hu]
      exact mapOutcome_ne_notFound _ s
    · rw [if_neg hu]
      intro hc
      injection hc with h1
      exact ApiError.noConfusion h1

/-- C6 (witness): the concrete 40 character transaction id against the
transport double that reports no such transaction surfaces as NotFoundError. -/
theorem getTransaction_notFound_distinct_witness :
    getTransaction sampleTxId noSuchTxTransport =
      (.error (.notFoundError sampleTxId), 1) :=
  (getTransaction_notFound_distinct sampleTxId noSuchTxTransport 1
    "no such transaction" (by decide) rfl (by decide)).1

/-- C9: the facade holds no mutable state beyond the client reference fixed
at construction; every operation leaves the facade state, and in particular
its client reference, identical to what it was before the call. -/
theorem facade_state_immutable (api : DatabaseAPI) (op : FacadeCall) :
    (api.run op).2 = api ∧ (api.run op).2.client = api.client ∧
    ∀ cl : Client, (DatabaseAPI.mk cl).client = cl := by
  refine ⟨?_, ?_, fun cl => rfl⟩ <;> cases op <;> rfl

/-- C10 (counterexample): getTransaction is not extensionally equal to the
generic call on its normalized parameters; on a remote report that no such
transaction exists the typed method answers NotFoundError while the generic
call answers RemoteError. -/
theorem typed_call_refinement_counterexample :
    getTransaction sampleTxId noSuchTxTransport ≠
      runCall "get_transaction" (normalizeGetTransaction sampleTxId)
        noSuchTxTransport := by
  intro h
  rw [show getTransaction sampleTxId noSuchTxTransport =
      (.error (.notFoundError sampleTxId), 1) from rfl] at h
  rw [show runCall "get_transaction" (normalizeGetTransaction sampleTxId)
        noSuchTxTransport =
      (.error (.remoteError 1 "no such transaction"), 1) from rfl] at h
  injection h with h1 h2
  injection h1 with h3
  exact ApiError.noConfusion h3

/-- C10 (amended): every typed facade method except getTransaction equals,
on every input, the generic call invoked with the method's remote name and
its normalized ordered parameter list (validation failures included);
getTransaction equals that composition followed by the translation of a
remote no-such-transaction report into NotFoundError. -/
theorem typed_methods_refine_generic_call
    (t : TransportFn) (path account txId : String) (fromArg : Option String)
    (limitArg : Option Nat) (blockNum start limit : Nat)
    (onlyVirtual : Option Bool) (category : DiscussionQueryCategory)
    (q : DisqussionQuery) (usernames : List String) (bm : Option (Nat × Nat))
    (stx : JSONValue) :
    getDynamicGlobalProperties t = call "get_dynamic_global_properties" [] t ∧
    getChainProperties t = call "get_chain_properties" [] t ∧
    getState path t = runCall "get_state" (normalizeGetState path) t ∧
    getCurrentMedianHistoryPrice t = call "get_current_median_history_price" [] t ∧
    getVestingDelegations account fromArg limitArg t =
      runCall "get_vesting_delegations"
        (normalizeGetVestingDelegations account fromArg limitArg) t ∧
    getConfig t = call "get_config" [] t ∧
    getBlockHeader blockNum t =
      runCall "get_block_header" (normalizeBlockNum blockNum) t ∧
    getBlock blockNum t = runCall "get_block" (normalizeBlockNum blockNum) t ∧
    getOperations blockNum onlyVirtual t =
      runCall "get_ops_in_block" (normalizeGetOperations blockNum onlyVirtual) t ∧
    getDiscussions category q t =
      runCall ("get_discussions_by_" ++ category.remoteName)
        (normalizeGetDiscussions q) t ∧
    getAccounts usernames t =
      runCall "get_accounts" (normalizeGetAccounts usernames) t ∧
    getAccountHistory account start limit bm t =
      runCall "get_account_history"
        (normalizeGetAccountHistory account start limit bm) t ∧
    verifyAuthority stx t = call "verify_authority" [stx] t ∧
    getVersion t = call "get_version" [] t ∧
    getTransaction txId t =
      translateNoSuchTransaction txId
        (runCall "get_transaction" (normalizeGetTransaction txId) t) := by
  refine ⟨rfl, rfl, ?_, rfl, ?_, rfl, ?_, ?_, ?_, ?_, ?_, ?_, rfl, rfl, ?_⟩
  · by_cases hp : path = "" <;>
      simp [getState, normalizeGetState, runCall, call, hp]
  · by_cases ha : account = ""
    · simp [getVestingDelegations, normalizeGetVestingDelegations, runCall, ha]
    · by_cases hl : 1000 < limitArg.getD 1000 <;>
        simp [getVestingDelegations, normalizeGetVestingDelegations,
          runCall, call, ha, hl]
  · by_cases hb : blockNum = 0 <;>
      simp [getBlockHeader, normalizeBlockNum, runCall, call, hb]
  · by_cases hb : blockNum = 0 <;>
      simp [getBlock, normalizeBlockNum, runCall, call, hb]
  · by_cases hb : blockNum = 0 <;>
      simp [getOperations, normalizeGetOperations, runCall, call, hb]
  · by_cases h1 : q.limit = 0 ∨ 100 < q.limit
    · simp [getDiscussions, normalizeGetDiscussions, runCall, h1]
    · by_cases h2 : q.start_author.isSome ≠ q.start_permlink.isSome <;>
        simp [getDiscussions, normalizeGetDiscussions, runCall, call, h1, h2]
  · unfold getAccounts normalizeGetAccounts runCall
    by_cases hu : usernames.all (fun u => u ≠ "") = true
    · rw [if_pos hu, if_pos hu]
      rfl
    · rw [if_neg hu, if_neg hu]
  · by_cases ha : account = ""
    · simp [getAccountHistory, normalizeGetAccountHistory, runCall, ha]
    · by_cases hl : start + 1 < limit <;>
        simp [getAccountHistory, normalizeGetAccountHistory, runCall, call, ha, hl]
  · by_cases hv : validTxId txId = true
    · cases ho : t "database_api" "get_transaction" [.str txId] with
      | ok v =>
        simp [getTransaction, normalizeGetTransaction, runCall, call,
          mapOutcome, translateNoSuchTransaction, hv, ho]
      | remoteErr c m =>
        by_cases hn : reportsNoSuchTransaction m = true <;>
          simp [getTransaction, normalizeGetTransaction, runCall, call,
            mapOutcome, translateNoSuchTransaction, hv, ho, hn]
      | transportErr m =>
        simp [getTransaction, normalizeGetTransaction, runCall, call,
          mapOutcome, translateNoSuchTransaction, hv, ho]
    · simp [getTransaction, normalizeGetTransaction, runCall,
        translateNoSuchTransaction, hv]

end Dhive
